import Mathlib

/-!
Shallow embedding of the dead-reckoning position-hold estimator/controller
from `Python-Scripts/dead-reckoning-position-hold.py` (and the closely
related variants under `Python-Scripts/Flight_Stabilization_Module/`).

Python floats are modelled as exact rationals (`ℚ`); runtime-tunable
globals (the PID gains, the smoothing alpha, the optical-flow scale and
the height-scaling flag) become explicit parameters, while the fixed
module constants keep their source names and values.  Functions that
mutate module globals become pure functions from the old state to the
new state.
-/

namespace LiteWing

/-- Constant `VELOCITY_THRESHOLD = 0.005` — "stationary" velocity threshold. -/
def VELOCITY_THRESHOLD : ℚ := 5 / 1000

/-- Constant `DRIFT_COMPENSATION_RATE = 0.002` — gentle pull toward zero. -/
def DRIFT_COMPENSATION_RATE : ℚ := 2 / 1000

/-- Constant `PERIODIC_RESET_INTERVAL = 30.0` seconds. -/
def PERIODIC_RESET_INTERVAL : ℚ := 30

/-- Constant `MAX_POSITION_ERROR = 2.0` — position clamp bound. -/
def MAX_POSITION_ERROR : ℚ := 2

/-- Constant `MAX_CORRECTION = 0.1` — output clamp for the controller. -/
def MAX_CORRECTION : ℚ := 1 / 10

/-- Constant `CONTROL_UPDATE_RATE = 0.02` — 50 Hz control loop period. -/
def CONTROL_UPDATE_RATE : ℚ := 2 / 100

/-- Constant `DT = SENSOR_PERIOD_MS / 1000.0` with `SENSOR_PERIOD_MS = 10`. -/
def DT : ℚ := 1 / 100

/-- The 2-D integrated position `(integrated_position_x, integrated_position_y)`. -/
structure PositionEstimate where
  x : ℚ
  y : ℚ
  deriving DecidableEq, Repr

/-- Function `integrate_position(vx, vy, dt)`: dead-reckoning integration with the
`dt` sanity guard, drift compensation when moving slowly, and the final
position clamp.  The source tests `sqrt(vx*vx + vy*vy) < VELOCITY_THRESHOLD * 2`;
both sides of that comparison are nonnegative, so it is equivalent to
comparing `vx*vx + vy*vy` with `(VELOCITY_THRESHOLD * 2)^2`, which keeps the
definition inside `ℚ` (Lean's rationals have no square root). -/
def integrate_position (vx vy dt : ℚ) (p : PositionEstimate) : PositionEstimate :=
  if dt ≤ 0 ∨ dt > 1 / 10 then p
  else
    let x := p.x + vx * dt
    let y := p.y + vy * dt
    let slow := vx * vx + vy * vy < (VELOCITY_THRESHOLD * 2) ^ 2
    let x := if slow then x - x * DRIFT_COMPENSATION_RATE * dt else x
    let y := if slow then y - y * DRIFT_COMPENSATION_RATE * dt else y
    { x := max (-MAX_POSITION_ERROR) (min MAX_POSITION_ERROR x),
      y := max (-MAX_POSITION_ERROR) (min MAX_POSITION_ERROR y) }

/-- Run a sequence of `integrate_position` calls `(vx, vy, dt)` in order,
starting from the zeroed position state. -/
def integrateRun (calls : List (ℚ × ℚ × ℚ)) : PositionEstimate :=
  calls.foldl (fun p c => integrate_position c.1 c.2.1 c.2.2 p) ⟨0, 0⟩

/-- Function `smooth_velocity(new_velocity, history)` with the runtime-tunable
`VELOCITY_SMOOTHING_ALPHA` made an explicit parameter.  The 2-slot history
buffer is the pair `(history[0], history[1])`; the call shifts slot 0 into
slot 1, stores the raw new value in slot 0, blends, and applies the
dead-zone.  Returns `(smoothed, mutated history)`. -/
def smooth_velocity (alpha new_velocity : ℚ) (history : ℚ × ℚ) : ℚ × (ℚ × ℚ) :=
  let history := (new_velocity, history.1)
  let smoothed := history.1 * alpha + history.2 * (1 - alpha)
  (if |smoothed| < VELOCITY_THRESHOLD then 0 else smoothed, history)

/-- The globals read and written by `periodic_position_reset`:
`integrated_position_x/y` and `last_reset_time`. -/
structure ResetState where
  pos : PositionEstimate
  last_reset_time : ℚ
  deriving DecidableEq, Repr

/-- Function `periodic_position_reset()`, with `time.time()` passed in as `now`.
Zeroes both axes and updates `last_reset_time` when the interval has
elapsed, returning `true`; otherwise returns `false` and changes nothing. -/
def periodic_position_reset (now : ℚ) (s : ResetState) : Bool × ResetState :=
  if now - s.last_reset_time ≥ PERIODIC_RESET_INTERVAL then
    (true, { pos := ⟨0, 0⟩, last_reset_time := now })
  else
    (false, s)

/-- The runtime-tunable PID gains (module globals, editable via the GUI). -/
structure Gains where
  POSITION_KP : ℚ
  POSITION_KI : ℚ
  POSITION_KD : ℚ
  VELOCITY_KP : ℚ
  VELOCITY_KI : ℚ
  VELOCITY_KD : ℚ
  deriving DecidableEq, Repr

/-- The PID controller state globals: per-axis, per-loop integral
accumulators and last-error values.  (The `*_derivative_*` globals are
recomputed from scratch on every call and never read across calls, so
they are locals here.) -/
structure ControllerState where
  position_integral_x : ℚ
  position_integral_y : ℚ
  last_position_error_x : ℚ
  last_position_error_y : ℚ
  velocity_integral_x : ℚ
  velocity_integral_y : ℚ
  last_velocity_error_x : ℚ
  last_velocity_error_y : ℚ
  deriving DecidableEq, Repr

/-- All controller state variables zeroed, as at module start. -/
def initialControllerState : ControllerState := ⟨0, 0, 0, 0, 0, 0, 0, 0⟩

/-- Function `calculate_position_hold_corrections()`: the cascaded PID controller.
Reads the sensor-readiness flag, the current height, the integrated
position, the current smoothed velocity and the controller state;
returns the clamped `(total_vx, total_vy)` correction pair together with
the new controller state. -/
def calculate_position_hold_corrections (g : Gains) (sensor_data_ready : Bool)
    (current_height integrated_position_x integrated_position_y
      current_vx current_vy : ℚ)
    (s : ControllerState) : (ℚ × ℚ) × ControllerState :=
  if sensor_data_ready = false ∨ current_height ≤ 0 then ((0, 0), s)
  else
    let position_error_x := -integrated_position_x
    let position_error_y := -integrated_position_y
    let velocity_error_x := -current_vx
    let velocity_error_y := -current_vy
    let position_p_x := position_error_x * g.POSITION_KP
    let position_p_y := position_error_y * g.POSITION_KP
    let position_integral_x := s.position_integral_x + position_error_x * CONTROL_UPDATE_RATE
    let position_integral_y := s.position_integral_y + position_error_y * CONTROL_UPDATE_RATE
    let position_integral_x := max (-(1 / 10)) (min (1 / 10) position_integral_x)
    let position_integral_y := max (-(1 / 10)) (min (1 / 10) position_integral_y)
    let position_i_x := position_integral_x * g.POSITION_KI
    let position_i_y := position_integral_y * g.POSITION_KI
    let position_derivative_x := (position_error_x - s.last_position_error_x) / CONTROL_UPDATE_RATE
    let position_derivative_y := (position_error_y - s.last_position_error_y) / CONTROL_UPDATE_RATE
    let position_d_x := position_derivative_x * g.POSITION_KD
    let position_d_y := position_derivative_y * g.POSITION_KD
    let velocity_p_x := velocity_error_x * g.VELOCITY_KP
    let velocity_p_y := velocity_error_y * g.VELOCITY_KP
    let velocity_integral_x := s.velocity_integral_x + velocity_error_x * CONTROL_UPDATE_RATE
    let velocity_integral_y := s.velocity_integral_y + velocity_error_y * CONTROL_UPDATE_RATE
    let velocity_integral_x := max (-(1 / 20)) (min (1 / 20) velocity_integral_x)
    let velocity_integral_y := max (-(1 / 20)) (min (1 / 20) velocity_integral_y)
    let velocity_i_x := velocity_integral_x * g.VELOCITY_KI
    let velocity_i_y := velocity_integral_y * g.VELOCITY_KI
    let velocity_derivative_x := (velocity_error_x - s.last_velocity_error_x) / CONTROL_UPDATE_RATE
    let velocity_derivative_y := (velocity_error_y - s.last_velocity_error_y) / CONTROL_UPDATE_RATE
    let velocity_d_x := velocity_derivative_x * g.VELOCITY_KD
    let velocity_d_y := velocity_derivative_y * g.VELOCITY_KD
    let position_correction_vx := position_p_x + position_i_x + position_d_x
    let position_correction_vy := position_p_y + position_i_y + position_d_y
    let velocity_correction_vx := velocity_p_x + velocity_i_x + velocity_d_x
    let velocity_correction_vy := velocity_p_y + velocity_i_y + velocity_d_y
    let total_vx := position_correction_vx + velocity_correction_vx
    let total_vy := position_correction_vy + velocity_correction_vy
    let total_vx := max (-MAX_CORRECTION) (min MAX_CORRECTION total_vx)
    let total_vy := max (-MAX_CORRECTION) (min MAX_CORRECTION total_vy)
    ((total_vx, total_vy),
      { position_integral_x := position_integral_x
        position_integral_y := position_integral_y
        last_position_error_x := position_error_x
        last_position_error_y := position_error_y
        velocity_integral_x := velocity_integral_x
        velocity_integral_y := velocity_integral_y
        last_velocity_error_x := velocity_error_x
        last_velocity_error_y := velocity_error_y })

/-- One invocation's inputs to the controller. -/
structure CtrlInput where
  sensor_data_ready : Bool
  current_height : ℚ
  integrated_position_x : ℚ
  integrated_position_y : ℚ
  current_vx : ℚ
  current_vy : ℚ

/-- Run a sequence of controller calls from the initial zeroed state,
keeping only the evolving `ControllerState`. -/
def controllerRun (g : Gains) (inputs : List CtrlInput) : ControllerState :=
  inputs.foldl
    (fun s i =>
      (calculate_position_hold_corrections g i.sensor_data_ready i.current_height
        i.integrated_position_x i.integrated_position_y i.current_vx i.current_vy s).2)
    initialControllerState

/-- The anti-windup bands of the source: `±0.1` for the position-loop
integral accumulators, `±0.05` for the velocity-loop ones. -/
def integralsInBands (s : ControllerState) : Prop :=
  |s.position_integral_x| ≤ 1 / 10 ∧ |s.position_integral_y| ≤ 1 / 10 ∧
    |s.velocity_integral_x| ≤ 1 / 20 ∧ |s.velocity_integral_y| ≤ 1 / 20

instance (s : ControllerState) : Decidable (integralsInBands s) := by
  unfold integralsInBands; infer_instance

end LiteWing

namespace LiteWing

/-- Clamping to `[-M, M]` bounds the absolute value, provided `0 ≤ M`. -/
theorem abs_clamp_le (M v : ℚ) (hM : 0 ≤ M) :
    |max (-M) (min M v)| ≤ M := by
  rw [abs_le]
  constructor
  · exact le_max_left _ _
  · exact max_le (by linarith) (min_le_left _ _)

/-- One `integrate_position` call preserves the position clamp invariant. -/
theorem integrate_position_preserves (vx vy dt : ℚ) (p : PositionEstimate)
    (hx : |p.x| ≤ MAX_POSITION_ERROR) (hy : |p.y| ≤ MAX_POSITION_ERROR) :
    |(integrate_position vx vy dt p).x| ≤ MAX_POSITION_ERROR ∧
      |(integrate_position vx vy dt p).y| ≤ MAX_POSITION_ERROR := by
  unfold integrate_position
  split
  · exact ⟨hx, hy⟩
  · exact ⟨abs_clamp_le _ _ (by norm_num [MAX_POSITION_ERROR]),
      abs_clamp_le _ _ (by norm_num [MAX_POSITION_ERROR])⟩

theorem integrateRun_go (calls : List (ℚ × ℚ × ℚ)) (p : PositionEstimate)
    (hx : |p.x| ≤ MAX_POSITION_ERROR) (hy : |p.y| ≤ MAX_POSITION_ERROR) :
    |(calls.foldl (fun q c => integrate_position c.1 c.2.1 c.2.2 q) p).x| ≤ MAX_POSITION_ERROR ∧
      |(calls.foldl (fun q c => integrate_position c.1 c.2.1 c.2.2 q) p).y| ≤ MAX_POSITION_ERROR := by
  induction calls generalizing p with
  | nil => exact ⟨hx, hy⟩
  | cons c cs ih =>
      have h := integrate_position_preserves c.1 c.2.1 c.2.2 p hx hy
      exact ih _ h.1 h.2

/-- C2: after any sequence of `integrate_position` calls from the zeroed
state, `|x| ≤ MAX_POSITION_ERROR` and `|y| ≤ MAX_POSITION_ERROR` (hard
clamp); since this holds for every call list, it holds after every call
of any longer sequence. -/
theorem integrateRun_clamped (calls : List (ℚ × ℚ × ℚ)) :
    |(integrateRun calls).x| ≤ MAX_POSITION_ERROR ∧
      |(integrateRun calls).y| ≤ MAX_POSITION_ERROR := by
  exact integrateRun_go calls ⟨0, 0⟩ (by norm_num [MAX_POSITION_ERROR])
    (by norm_num [MAX_POSITION_ERROR])

/-- One controller call keeps (in fact re-establishes) the anti-windup
bands: on the active path every integral accumulator is a fresh clamp,
and on the sensor-not-ready path the state is returned unchanged. -/
theorem controller_step_bands (g : Gains) (i : CtrlInput) (s : ControllerState)
    (hs : integralsInBands s) :
    integralsInBands
      (calculate_position_hold_corrections g i.sensor_data_ready i.current_height
        i.integrated_position_x i.integrated_position_y i.current_vx i.current_vy s).2 := by
  unfold calculate_position_hold_corrections
  split
  · exact hs
  · exact ⟨abs_clamp_le _ _ (by norm_num), abs_clamp_le _ _ (by norm_num),
      abs_clamp_le _ _ (by norm_num), abs_clamp_le _ _ (by norm_num)⟩

theorem controllerRun_go (g : Gains) (inputs : List CtrlInput) (s : ControllerState)
    (hs : integralsInBands s) :
    integralsInBands
      (inputs.foldl
        (fun t i =>
          (calculate_position_hold_corrections g i.sensor_data_ready i.current_height
            i.integrated_position_x i.integrated_position_y i.current_vx i.current_vy t).2)
        s) := by
  induction inputs generalizing s with
  | nil => exact hs
  | cons i is ih => exact ih _ (controller_step_bands g i s hs)

/-- C3: after any sequence of controller calls (arbitrary positions and
velocities, so in particular a constant large error held for arbitrarily
many cycles), each position-loop integral accumulator stays in
`[-0.1, 0.1]` and each velocity-loop integral accumulator in
`[-0.05, 0.05]`; the accumulators never grow unbounded. -/
theorem controllerRun_integrals_bounded (g : Gains) (inputs : List CtrlInput) :
    integralsInBands (controllerRun g inputs) := by
  exact controllerRun_go g inputs initialControllerState
    (by unfold integralsInBands initialControllerState; norm_num)

/-- C4: when the sensor has not yet produced a valid sample
(`sensor_data_ready` false, or `current_height ≤ 0`), the controller
returns `(0, 0)` and the controller state — both integral accumulators
and both last-error values on each axis — is identical before and after. -/
theorem controller_not_ready_noop (g : Gains) (sensor_data_ready : Bool)
    (current_height px py vx vy : ℚ) (s : ControllerState)
    (h : sensor_data_ready = false ∨ current_height ≤ 0) :
    calculate_position_hold_corrections g sensor_data_ready current_height
      px py vx vy s = ((0, 0), s) := by
  unfold calculate_position_hold_corrections
  rw [if_pos h]

/-- Witness for `controller_not_ready_noop` at a concrete input. -/
theorem controller_not_ready_noop_witness :
    calculate_position_hold_corrections ⟨3/2, 0, 0, 6/5, 0, 0⟩ false (3/10)
      (1/2) (1/4) (1/100) (2/100) initialControllerState
      = ((0, 0), initialControllerState) :=
  controller_not_ready_noop ⟨3/2, 0, 0, 6/5, 0, 0⟩ false (3/10)
    (1/2) (1/4) (1/100) (2/100) initialControllerState (Or.inl rfl)

/-- C7: for `dt ≤ 0` or `dt > 0.1` the integration step is skipped:
the position state is returned unchanged (neither updated nor reset). -/
theorem integrate_position_skip (vx vy dt : ℚ) (p : PositionEstimate)
    (h : dt ≤ 0 ∨ dt > 1 / 10) :
    integrate_position vx vy dt p = p := by
  unfold integrate_position
  rw [if_pos h]

/-- Witness for `integrate_position_skip`: a 200 ms gap with a large
velocity leaves a concrete nonzero position untouched. -/
theorem integrate_position_skip_witness :
    ((1 : ℚ) / 5 ≤ 0 ∨ (1 : ℚ) / 5 > 1 / 10) ∧
      integrate_position 5 (-3) (1/5) ⟨1/2, -(1/4)⟩ = ⟨1/2, -(1/4)⟩ :=
  ⟨Or.inr (by norm_num),
    integrate_position_skip 5 (-3) (1/5) ⟨1/2, -(1/4)⟩ (Or.inr (by norm_num))⟩

/-- C8: when the interval has elapsed, `periodic_position_reset` zeroes
both axes (position is exactly `(0,0)` immediately after, regardless of
the prior accumulated value) and returns `true`; a second call within
the same interval window returns `false` and performs no further change. -/
theorem periodic_reset_once (s : ResetState) (now now2 : ℚ)
    (h1 : now - s.last_reset_time ≥ PERIODIC_RESET_INTERVAL)
    (h2 : now2 - now < PERIODIC_RESET_INTERVAL) :
    (periodic_position_reset now s).1 = true ∧
      (periodic_position_reset now s).2.pos = ⟨0, 0⟩ ∧
      periodic_position_reset now2 (periodic_position_reset now s).2 =
        (false, (periodic_position_reset now s).2) := by
  unfold periodic_position_reset
  rw [if_pos h1]
  refine ⟨rfl, rfl, ?_⟩
  simp only
  rw [if_neg (by simpa using not_le.mpr h2)]

/-- Witness for `periodic_reset_once`: a firing reset at `now = 50` from
an accumulated position `(1.7, -2)` set 50 s earlier, followed by an
immediate second call. -/
theorem periodic_reset_once_witness :
    (50 : ℚ) - 0 ≥ PERIODIC_RESET_INTERVAL ∧ (50 : ℚ) - 50 < PERIODIC_RESET_INTERVAL ∧
      ((periodic_position_reset 50 ⟨⟨17/10, -2⟩, 0⟩).1 = true ∧
        (periodic_position_reset 50 ⟨⟨17/10, -2⟩, 0⟩).2.pos = ⟨0, 0⟩ ∧
        periodic_position_reset 50 (periodic_position_reset 50 ⟨⟨17/10, -2⟩, 0⟩).2 =
          (false, (periodic_position_reset 50 ⟨⟨17/10, -2⟩, 0⟩).2)) :=
  ⟨by norm_num [PERIODIC_RESET_INTERVAL], by norm_num [PERIODIC_RESET_INTERVAL],
    periodic_reset_once ⟨⟨17/10, -2⟩, 0⟩ 50 50
      (by norm_num [PERIODIC_RESET_INTERVAL])
      (by norm_num [PERIODIC_RESET_INTERVAL])⟩

/-- C6: for every `alpha ∈ [0.7, 1.5]` (including `alpha > 1`),
`smooth_velocity` returns the blend `alpha * slot0 + (1 - alpha) * slot1`
(slot 0 being the new raw value, slot 1 the previous one), except that a
blend whose absolute value is below `VELOCITY_THRESHOLD` is forced to
exactly `0`. -/
theorem smooth_velocity_blend (alpha : ℚ) (h1 : 7 / 10 ≤ alpha) (h2 : alpha ≤ 3 / 2)
    (v : ℚ) (history : ℚ × ℚ) :
    (smooth_velocity alpha v history).1 =
      if |alpha * v + (1 - alpha) * history.1| < VELOCITY_THRESHOLD then 0
      else alpha * v + (1 - alpha) * history.1 := by
  simp only [smooth_velocity, mul_comm]

/-- Witness for `smooth_velocity_blend` at `alpha = 1.5` (an
extrapolating tuning): blend of `0.02` over previous raw `0.01` is
`0.025`, above the dead-zone, and is returned as-is. -/
theorem smooth_velocity_blend_witness :
    ((7 : ℚ) / 10 ≤ 3 / 2 ∧ (3 : ℚ) / 2 ≤ 3 / 2) ∧
      (smooth_velocity (3/2) (2/100) (1/100, 0)).1 =
        if |(3 : ℚ)/2 * (2/100) + (1 - 3/2) * (1/100)| < VELOCITY_THRESHOLD then 0
        else (3 : ℚ)/2 * (2/100) + (1 - 3/2) * (1/100) :=
  ⟨⟨by norm_num, le_refl _⟩,
    smooth_velocity_blend (3/2) (by norm_num) (le_refl _) (2/100) (1/100, 0)⟩

/-- C10: `smooth_velocity` stores the raw, pre-dead-zone input in the
history buffer unconditionally — after the call slot 0 holds the current
raw value and slot 1 the previous raw value, even when the dead-zone
forces the returned value to `0` — so a sub-threshold raw value still
enters the next call's blend with full weight `1 - alpha`. -/
theorem smooth_velocity_history_raw (alpha v v2 : ℚ) (history : ℚ × ℚ) :
    (smooth_velocity alpha v history).2 = (v, history.1) ∧
      (smooth_velocity alpha v2 (smooth_velocity alpha v history).2).1 =
        (if |alpha * v2 + (1 - alpha) * v| < VELOCITY_THRESHOLD then 0
         else alpha * v2 + (1 - alpha) * v) := by
  constructor
  · rfl
  · simp only [smooth_velocity, mul_comm]

end LiteWing

namespace LiteWing

/-- The default gains of the source module:
`POSITION_KP = 1.5`, `POSITION_KI = 0`, `POSITION_KD = 0`,
`VELOCITY_KP = 1.2`, `VELOCITY_KI = 0`, `VELOCITY_KD = 0`. -/
def defaultGains : Gains := ⟨3/2, 0, 0, 6/5, 0, 0⟩

/-- The six GUI gain text fields, modelled as `Option ℚ`: `some q` when
Python `float()` parses the field to the value `q`, `none` when the text
is non-numeric and `float()` raises `ValueError`. -/
structure PidInputs where
  pos_kp : Option ℚ
  pos_ki : Option ℚ
  pos_kd : Option ℚ
  vel_kp : Option ℚ
  vel_ki : Option ℚ
  vel_kd : Option ℚ
  deriving DecidableEq, Repr

/-- Function `apply_pid_values()`: the source assigns the six gain
globals one by one inside a single `try` block; the first failing
`float()` conversion raises and aborts the rest of the block (the
`except` branch only prints), so assignments made before the failure
persist, the later gains keep their prior values, and the PID-state reset
at the end of the block is skipped.  Returns the new `(gains, state)`. -/
def apply_pid_values (inp : PidInputs) (g : Gains) (s : ControllerState) :
    Gains × ControllerState :=
  match inp.pos_kp with
  | none => (g, s)
  | some pos_kp =>
    let g := { g with POSITION_KP := pos_kp }
    match inp.pos_ki with
    | none => (g, s)
    | some pos_ki =>
      let g := { g with POSITION_KI := pos_ki }
      match inp.pos_kd with
      | none => (g, s)
      | some pos_kd =>
        let g := { g with POSITION_KD := pos_kd }
        match inp.vel_kp with
        | none => (g, s)
        | some vel_kp =>
          let g := { g with VELOCITY_KP := vel_kp }
          match inp.vel_ki with
          | none => (g, s)
          | some vel_ki =>
            let g := { g with VELOCITY_KI := vel_ki }
            match inp.vel_kd with
            | none => (g, s)
            | some vel_kd =>
              ({ g with VELOCITY_KD := vel_kd }, initialControllerState)

/-- The hover-phase globals of `flight_controller_thread`: the integrated
position, the two clocks, the integration-enabled flag and the PID
controller state. -/
structure HoverState where
  pos : PositionEstimate
  last_integration_time : ℚ
  last_reset_time : ℚ
  position_integration_enabled : Bool
  ctrl : ControllerState
  deriving DecidableEq, Repr

/-- The hold-mode-entry block of `flight_controller_thread` (after the
takeoff loop): zeroes the integrated position, stamps both clocks with
the current time, enables integration, and resets the PID controller
state. -/
def hold_mode_entry (now : ℚ) (_s : HoverState) : HoverState :=
  { pos := ⟨0, 0⟩
    last_integration_time := now
    last_reset_time := now
    position_integration_enabled := true
    ctrl := initialControllerState }

/-- One iteration of the hover loop body of `flight_controller_thread`:
compute the position-hold corrections, then check the periodic reset.
Returns the corrections, the reset flag (surfaced as the phase annotation
"HOVER (RESET)") and the new state. -/
def hoverStep (g : Gains) (now : ℚ) (sensor_data_ready : Bool)
    (current_height current_vx current_vy : ℚ) (s : HoverState) :
    (ℚ × ℚ) × Bool × HoverState :=
  let r := calculate_position_hold_corrections g sensor_data_ready current_height
    s.pos.x s.pos.y current_vx current_vy s.ctrl
  let pr := periodic_position_reset now ⟨s.pos, s.last_reset_time⟩
  (r.1, pr.1,
    { s with pos := pr.2.pos, last_reset_time := pr.2.last_reset_time, ctrl := r.2 })

end LiteWing

namespace LiteWing.Joystick

/-- Constant `DEG_TO_RAD = 3.1415926535 / 180.0` from
`dead-reckoning-joystick-control.py` — the source's rational
approximation of pi over 180. -/
def DEG_TO_RAD : ℚ := (31415926535 / 10000000000) / 180

/-- Constant `DT = SENSOR_PERIOD_MS / 1000.0` with `SENSOR_PERIOD_MS = 10`
in `dead-reckoning-joystick-control.py`. -/
def DT : ℚ := 1 / 100

/-- Function `calculate_velocity(delta_value, altitude)` from
`dead-reckoning-joystick-control.py`, with the runtime-tunable globals
`USE_HEIGHT_SCALING` and `OPTICAL_FLOW_SCALE` as parameters; its
height-scaled constant is `(5.4 * DEG_TO_RAD) / (30.0 * DT)`. -/
def calculate_velocity (USE_HEIGHT_SCALING : Bool) (OPTICAL_FLOW_SCALE : ℚ)
    (delta_value altitude : ℚ) : ℚ :=
  if altitude ≤ 0 then 0
  else if USE_HEIGHT_SCALING then
    delta_value * altitude * ((27 / 5 * DEG_TO_RAD) / (30 * DT))
  else
    delta_value * OPTICAL_FLOW_SCALE * DT

end LiteWing.Joystick

namespace LiteWing

/-- C1 counterexample: an execution fragment of the hover loop in which
the periodic reset zeroes the integrated position while a position-loop
integral accumulator is nonzero.  From hold-mode entry (everything
zeroed, clocks at 0), one sensor sample integrates the position to
`(0.01, 0)`; the hover iteration at `now = 30` first runs the controller
(leaving `position_integral_x = -0.0002`) and then fires the periodic
reset, which touches only the position and the reset clock — so
immediately after an operation that zeroes the integrated position, the
integral accumulators are not all zero. -/
theorem periodic_reset_keeps_integrals_ctrex :
    (let s0 := hold_mode_entry 0 ⟨⟨0, 0⟩, 0, 0, false, initialControllerState⟩
     let p1 := integrate_position 1 0 (1/100) s0.pos
     let r := hoverStep defaultGains 30 true (3/10) 0 0 { s0 with pos := p1 }
     r.2.1 = true ∧ r.2.2.pos = ⟨0, 0⟩ ∧ r.2.2.ctrl.position_integral_x ≠ 0) := by
  norm_num [hold_mode_entry, hoverStep, integrate_position,
    calculate_position_hold_corrections, periodic_position_reset, defaultGains,
    initialControllerState, VELOCITY_THRESHOLD, DRIFT_COMPENSATION_RATE,
    MAX_POSITION_ERROR, MAX_CORRECTION, CONTROL_UPDATE_RATE,
    PERIODIC_RESET_INTERVAL, min_def, max_def]

/-- C1 (amended): the ControllerState — all four integral accumulators
and all four last-error values — is reset to zero at hold-mode entry and
by a successful (fully numeric) runtime gain change; the periodic
position reset, by contrast, touches only the integrated position and
the reset clock, and the hover-loop state after it carries the
controller state produced by the controller call, unchanged by the
reset. -/
theorem controller_reset_points (s : HoverState) (now : ℚ) (g : Gains)
    (st : ControllerState) (a b c d e f : ℚ)
    (ready : Bool) (height vx vy : ℚ) :
    (hold_mode_entry now s).ctrl = initialControllerState ∧
      (hold_mode_entry now s).pos = ⟨0, 0⟩ ∧
      (apply_pid_values ⟨some a, some b, some c, some d, some e, some f⟩ g st).2 =
        initialControllerState ∧
      (hoverStep g now ready height vx vy s).2.2.ctrl =
        (calculate_position_hold_corrections g ready height
          s.pos.x s.pos.y vx vy s.ctrl).2 :=
  ⟨rfl, rfl, rfl, rfl⟩

/-- C5 counterexample: applying the configuration whose position-Kp field
parses to `2` and whose position-Ki field is non-numeric does not leave
the prior configuration in effect in its entirety — `POSITION_KP` has
already been updated when the failure occurs. -/
theorem apply_pid_values_not_atomic_ctrex :
    (apply_pid_values ⟨some 2, none, none, none, none, none⟩ defaultGains
        initialControllerState).1 ≠ defaultGains := by
  norm_num [apply_pid_values, defaultGains, Gains.mk.injEq]

/-- C5 (amended): a failed apply is not atomic.  Whichever of the six
gain fields is the first non-numeric one, the apply stops there: the
gains parsed before it take their new values, the failing gain and every
later one keep their prior values, and the controller-state reset is
skipped. -/
theorem apply_pid_values_first_invalid (inp : PidInputs) (g : Gains)
    (s : ControllerState) :
    (inp.pos_kp = none → apply_pid_values inp g s = (g, s)) ∧
      (∀ a, inp.pos_kp = some a → inp.pos_ki = none →
        apply_pid_values inp g s = ({ g with POSITION_KP := a }, s)) ∧
      (∀ a b, inp.pos_kp = some a → inp.pos_ki = some b → inp.pos_kd = none →
        apply_pid_values inp g s =
          ({ g with POSITION_KP := a, POSITION_KI := b }, s)) ∧
      (∀ a b c, inp.pos_kp = some a → inp.pos_ki = some b →
        inp.pos_kd = some c → inp.vel_kp = none →
        apply_pid_values inp g s =
          ({ g with POSITION_KP := a, POSITION_KI := b, POSITION_KD := c }, s)) ∧
      (∀ a b c d, inp.pos_kp = some a → inp.pos_ki = some b →
        inp.pos_kd = some c → inp.vel_kp = some d → inp.vel_ki = none →
        apply_pid_values inp g s =
          ({ g with
              POSITION_KP := a
              POSITION_KI := b
              POSITION_KD := c
              VELOCITY_KP := d }, s)) ∧
      (∀ a b c d e, inp.pos_kp = some a → inp.pos_ki = some b →
        inp.pos_kd = some c → inp.vel_kp = some d → inp.vel_ki = some e →
        inp.vel_kd = none →
        apply_pid_values inp g s =
          ({ g with
              POSITION_KP := a
              POSITION_KI := b
              POSITION_KD := c
              VELOCITY_KP := d
              VELOCITY_KI := e }, s)) := by
  refine ⟨?_, ?_, ?_, ?_, ?_, ?_⟩
  · intro h1
    unfold apply_pid_values
    rw [h1]
  · intro a h1 h2
    unfold apply_pid_values
    rw [h1, h2]
  · intro a b h1 h2 h3
    unfold apply_pid_values
    rw [h1, h2, h3]
  · intro a b c h1 h2 h3 h4
    unfold apply_pid_values
    rw [h1, h2, h3, h4]
  · intro a b c d h1 h2 h3 h4 h5
    unfold apply_pid_values
    rw [h1, h2, h3, h4, h5]
  · intro a b c d e h1 h2 h3 h4 h5 h6
    unfold apply_pid_values
    rw [h1, h2, h3, h4, h5, h6]

/-- Witness for `apply_pid_values_first_invalid`: a failure at the very
first field leaves everything prior in effect, and a failure at the last
field after five successful parses leaves the first five gains updated,
the last one prior, and the state reset skipped. -/
theorem apply_pid_values_first_invalid_witness :
    apply_pid_values ⟨none, some 3, some 4, some 5, some 6, some 7⟩ defaultGains
        initialControllerState = (defaultGains, initialControllerState) ∧
      apply_pid_values ⟨some 2, some 3, some 4, some 5, some 6, none⟩ defaultGains
          initialControllerState =
        ({ defaultGains with
            POSITION_KP := 2
            POSITION_KI := 3
            POSITION_KD := 4
            VELOCITY_KP := 5
            VELOCITY_KI := 6 }, initialControllerState) :=
  ⟨(apply_pid_values_first_invalid ⟨none, some 3, some 4, some 5, some 6, some 7⟩
      defaultGains initialControllerState).1 rfl,
    (apply_pid_values_first_invalid ⟨some 2, some 3, some 4, some 5, some 6, none⟩
      defaultGains initialControllerState).2.2.2.2.2 2 3 4 5 6
      rfl rfl rfl rfl rfl rfl⟩

/-- C9 counterexample: at `delta = 5`, `altitude = 0.3` with height
scaling enabled, the velocity computed by the code is a rational number
(the code's `DEG_TO_RAD` uses the approximation `3.1415926535`), so it
cannot equal the spec's expression `5 * 0.3 * (5.4 * π / 180) / (30 * 0.01)`,
which is a nonzero rational multiple of π and hence irrational. -/
theorem calculate_velocity_pi_ctrex :
    ((Joystick.calculate_velocity true (22/5) 5 (3/10) : ℚ) : ℝ) ≠
      5 * (3/10) * (27/5 * Real.pi / 180) / (30 * (1/100)) := by
  intro h
  have hR : (5 : ℝ) * (3/10) * (27/5 * Real.pi / 180) / (30 * (1/100)) =
      ((3/20 : ℚ) : ℝ) * Real.pi := by
    push_cast
    ring
  rw [hR] at h
  exact (irrational_pi.rat_mul (q := 3/20) (by norm_num)) ⟨_, h⟩

/-- C9 (amended): at `delta = 5`, `altitude = 0.3` with height scaling
enabled, the raw velocity equals exactly
`5 * 0.3 * (5.4 * (3.1415926535 / 180)) / (30 * 0.01)` — the formula of
the claim with the code's rational approximation of π in place of π. -/
theorem calculate_velocity_height_scaled (scale : ℚ) :
    Joystick.calculate_velocity true scale 5 (3/10) =
      5 * (3/10) * (27/5 * ((31415926535/10000000000) / 180)) / (30 * (1/100)) := by
  norm_num [Joystick.calculate_velocity, Joystick.DEG_TO_RAD, Joystick.DT]

end LiteWing
